import Mathlib

/-!
Shallow embedding of the medical-chatbot query core
(src/core/config.py, vector_search.py, cross_encoder_ranker.py,
llm_generator.py, query_pipeline.py).

Modelling conventions:
* Python floats carrying similarity / relevance scores are modelled as `ℚ`:
  every claim about them only compares scores, and float comparison on the
  values the program produces is a total order, which `ℚ` reproduces.
* Python exceptions are modelled with `Except String`; a function that can
  raise returns `Except String α` and a `try/except` block is a `match`.
* The external collaborators (Neo4j driver, sentence-transformers models,
  Ollama HTTP endpoint) are parameters: an entity-lookup oracle
  `String → String → Except String (List String)`, a cross-encoder scoring
  oracle `String → String → ℚ`, and a `SvcOutcome` describing one outcome of
  the generation-service HTTP call.
* `time.time()` is a clock `ℕ → ℚ` sampled at successive call sites, in the
  exact order the Python code reaches them.
* Python's `sorted(..., key=k, reverse=True)` is a stable descending sort;
  `sortDesc` below is an insertion sort with exactly that extensional
  behaviour (earlier elements win ties).
* Python's slice `l[:n]` is `pyTake n l`, including the negative-index case
  `stop = max(len(l) + n, 0)`.
-/

/-! ## Configuration constants (src/core/config.py) -/

def TOP_K_VECTOR_SEARCH : Int := 10

def TOP_N_RERANKED : Int := 3

def MIN_SIMILARITY_THRESHOLD : ℚ := 3/10

def MAX_CONTEXT_LENGTH : Nat := 8000

def OLLAMA_MODEL : String := "mistral:7b"

def OLLAMA_TEMPERATURE : ℚ := 1/10

def ENHANCED_CONTEXT_FORMAT : Bool := true

/-! ## Records -/

/-- A raw row returned by `VectorSearcher.vector_search` (one Section node
plus its similarity score), src/core/vector_search.py lines 103-113. -/
structure Passage where
  node_id : String
  substance_name : String
  section_name : String
  section_text : String
  word_count : Int
  entity_count : Int
  similarity_score : ℚ
deriving DecidableEq

/-- The dict built by `VectorSearcher.build_subgraph_context`
(src/core/vector_search.py lines 169-178); `cross_encoder_score` is the key
optionally added later by `CrossEncoderRanker.rerank`. -/
structure Subgraph where
  substance_name : String
  section_name : String
  section_text : String
  word_count : Int
  entity_count : Int
  entities : List String
  similarity_score : ℚ
  node_id : String
  cross_encoder_score : Option ℚ := none
deriving DecidableEq

/-- One entry of the `sources` list built by `LLMGenerator.generate_answer`
(src/core/llm_generator.py lines 168-176). -/
structure SourceAttr where
  substance_name : String
  section_name : String
  similarity_score : ℚ
  cross_encoder_score : ℚ
deriving DecidableEq

/-- The dict returned by `LLMGenerator.generate_answer`. -/
structure GenResult where
  answer : String
  sources : List SourceAttr
  error : Option String
  model : Option String := none
  temperature : Option ℚ := none
deriving DecidableEq

/-- One outcome of the HTTP POST to the Ollama generation endpoint
(src/core/llm_generator.py lines 148-152): the request times out, raises
some other exception, or yields a response with a status code and the
(already-extracted) `response` field of its JSON body. -/
inductive SvcOutcome where
  | timeout
  | exc (msg : String)
  | resp (status : Int) (response_text : String)
deriving DecidableEq

def SvcOutcome.isSuccess : SvcOutcome → Bool
  | .resp st _ => st == 200
  | _ => false

/-- The `result['timing']` dict of `QueryPipeline.process_query`; `total` is
assigned on every return path, the stage entries only when reached. -/
structure Timing where
  vector_search : Option ℚ := none
  reranking : Option ℚ := none
  llm_generation : Option ℚ := none
  total : ℚ := 0
deriving DecidableEq

/-- The result dict of `QueryPipeline.process_query`
(src/core/query_pipeline.py lines 58-64). -/
structure PipelineResult where
  query : String
  answer : Option String
  sources : List SourceAttr
  error : Option String
  timing : Timing
deriving DecidableEq

/-! ## Fixed user-facing strings (quoted verbatim from the source) -/

/-- An apostrophe character, kept out of string literals. -/
def apos : String := String.mk [Char.ofNat 39]

/-- src/core/llm_generator.py line 122. -/
def no_info_answer : String :=
  "I don" ++ apos ++ "t have any relevant information in my knowledge base to answer this question."

/-- src/core/llm_generator.py line 192. -/
def timeout_fallback_answer : String :=
  "Answer generation timed out. Please try again with a simpler question."

/-- src/core/llm_generator.py lines 158 and 201. -/
def generation_error_answer : String :=
  "Error generating answer. Please try again."

/-- src/core/query_pipeline.py line 127. -/
def pipeline_error_answer : String :=
  "An error occurred while processing your question. Please try again."

/-- src/core/query_pipeline.py line 79. -/
def no_results_answer : String :=
  "I couldn" ++ apos ++ "t find any relevant information in my knowledge base for this question."

/-! ## Generic list machinery: Python slices and Python stable sort -/

/-- The number of elements kept by the Python slice `l[:n]` on a list of
length `len`: `n` clamped to `[0, len]` for nonnegative `n`, and
`max(len + n, 0)` for negative `n` (`List.take` does the upper clamping). -/
def sliceCount (n : Int) (len : Nat) : Nat :=
  if 0 ≤ n then n.toNat else ((len : Int) + n).toNat

/-- Python's `l[:n]`. -/
def pyTake (n : Int) (l : List α) : List α :=
  l.take (sliceCount n l.length)

/-- Insert `x` into `l` in front of the first element whose key is `≤ key x`:
the insertion step of a stable descending insertion sort. -/
def insortDesc (key : α → ℚ) (x : α) : List α → List α
  | [] => [x]
  | y :: ys => if key y ≤ key x then x :: y :: ys else y :: insortDesc key x ys

/-- Stable sort by `key`, descending — the extensional behaviour of Python's
`sorted(l, key=key, reverse=True)` (Python's sort is stable, and
`reverse=True` preserves stability rather than reversing ties). -/
def sortDesc (key : α → ℚ) : List α → List α
  | [] => []
  | x :: xs => insortDesc key x (sortDesc key xs)

/-! ## Vector search (src/core/vector_search.py) -/

/-- `VectorSearcher.build_subgraph_context` (lines 147-180): performs the
secondary entity lookup (`get_section_entities`, an oracle here) with no
exception handling — a lookup failure propagates — and repackages the
section row with the entity list attached. -/
def build_subgraph_context (ent : String → String → Except String (List String))
    (s : Passage) : Except String Subgraph :=
  match ent s.substance_name s.section_name with
  | .error e => .error e
  | .ok entities => .ok
      { substance_name := s.substance_name
        section_name := s.section_name
        section_text := s.section_text
        word_count := s.word_count
        entity_count := s.entity_count
        entities := entities
        similarity_score := s.similarity_score
        node_id := s.node_id }

/-- The `for section in sections` loop of `search_with_subgraphs`
(lines 209-211): builds contexts in order, aborting at the first failure. -/
def build_subgraphs (ent : String → String → Except String (List String)) :
    List Passage → Except String (List Subgraph)
  | [] => .ok []
  | s :: rest =>
    match build_subgraph_context ent s with
    | .error e => .error e
    | .ok sg =>
      match build_subgraphs ent rest with
      | .error e => .error e
      | .ok sgs => .ok (sg :: sgs)

/-- `VectorSearcher.search_with_subgraphs` (lines 182-215): the raw rows the
index returned are the parameter `sections`, the configured threshold is
`θ`; rows below the threshold are dropped, then a subgraph context is built
for each survivor (any exception propagating). -/
def search_with_subgraphs (ent : String → String → Except String (List String))
    (θ : ℚ) (sections : List Passage) : Except String (List Subgraph) :=
  let kept := sections.filter (fun s => decide (θ ≤ s.similarity_score))
  if kept.isEmpty then .ok [] else build_subgraphs ent kept

/-! ## Cross-encoder reranker (src/core/cross_encoder_ranker.py) -/

/-- `CrossEncoderRanker.prepare_pair` (lines 27-52), enhanced format
(`ENHANCED_CONTEXT_FORMAT = True`): metadata plus the first 20 entities;
the plain format is just the section text. `query` is accepted but unused,
as in the source. -/
def prepare_pair (query : String) (subgraph : Subgraph) : String :=
  if ENHANCED_CONTEXT_FORMAT then
    "Substance: " ++ subgraph.substance_name ++
    "\nSection: " ++ subgraph.section_name ++
    "\nContent: " ++ subgraph.section_text ++
    "\nRelated Medical Terms: " ++ String.intercalate ", " (subgraph.entities.take 20)
  else
    subgraph.section_text

/-- Lines 76-86: score every (query, context) pair with the cross-encoder
oracle `ce` and store the score on each subgraph
(`subgraph['cross_encoder_score'] = float(score)`). -/
def assign_scores (ce : String → String → ℚ) (query : String)
    (subgraphs : List Subgraph) : List Subgraph :=
  subgraphs.map (fun sg =>
    { sg with cross_encoder_score := some (ce query (prepare_pair query sg)) })

/-- The sort key `lambda x: x['cross_encoder_score']` (line 89); after
`assign_scores` the field is always present, so the default is never read. -/
def ce_key (sg : Subgraph) : ℚ :=
  sg.cross_encoder_score.getD 0

/-- `CrossEncoderRanker.rerank` (lines 54-105): empty input returns `[]`
after a warning; otherwise score, stable-sort descending by
`cross_encoder_score`, and keep the Python slice `[:top_n]`
(`top_n=None` defaults to `config.TOP_N_RERANKED`). -/
def rerank (ce : String → String → ℚ) (query : String)
    (subgraphs : List Subgraph) (top_n : Option Int) : List Subgraph :=
  let n := top_n.getD TOP_N_RERANKED
  if subgraphs.isEmpty then []
  else pyTake n (sortDesc ce_key (assign_scores ce query subgraphs))

/-! ## Heap-level reranker model (for the in-place-mutation claim)

Python dicts are heap objects; `rerank` mutates the dicts its input list
points to. References are modelled as `Nat` addresses into a store
`Nat → Subgraph`, and the input candidate list as a list of addresses. -/

/-- The mutation loop `for subgraph, score in zip(subgraphs, scores)`
(lines 85-86), executed left to right on the store. -/
def assign_store (store : Nat → Subgraph) : List (Nat × ℚ) → (Nat → Subgraph)
  | [] => store
  | (r, sc) :: rest =>
    assign_store
      (Function.update store r { store r with cross_encoder_score := some sc }) rest

/-- `CrossEncoderRanker.rerank`, heap-level: pairs are prepared from the
original dicts, the scores are written back in place, and the returned list
holds the same references, reordered and sliced. -/
def rerank_heap (ce : String → String → ℚ) (query : String)
    (store : Nat → Subgraph) (refs : List Nat) (top_n : Option Int) :
    (Nat → Subgraph) × List Nat :=
  let n := top_n.getD TOP_N_RERANKED
  if refs.isEmpty then (store, [])
  else
    let scores := refs.map (fun r => ce query (prepare_pair query (store r)))
    let store2 := assign_store store (refs.zip scores)
    (store2, pyTake n (sortDesc (fun r => ce_key (store2 r)) refs))

/-- Erase the `cross_encoder_score` key: the frame of the mutation. -/
def clear_ce (sg : Subgraph) : Subgraph :=
  { sg with cross_encoder_score := none }

/-! ## LLM generator (src/core/llm_generator.py) -/

/-- Python's `str.strip()`: drop leading and trailing whitespace
(an executable model of the `.strip()` on line 165). -/
def py_strip (s : String) : String :=
  String.mk
    (((s.data.dropWhile Char.isWhitespace).reverse.dropWhile
      Char.isWhitespace).reverse)

/-- The marker appended after character-level truncation (line 70). -/
def trunc_marker : String := "\n...(truncated)"

/-- One `[Source i]` block of `format_context` (lines 49-62), with the
entity preview capped at 15 terms. -/
def source_block (i : Nat) (sg : Subgraph) : String :=
  "[Source " ++ toString i ++ "]\n" ++
  "Substance: " ++ sg.substance_name ++ "\n" ++
  "Section: " ++ sg.section_name ++ "\n\n" ++
  "Content:\n" ++ sg.section_text ++ "\n\n" ++
  "Related Medical Terms: " ++ String.intercalate ", " (sg.entities.take 15) ++ "\n"

/-- The 80-character horizontal rule prepended to the joined blocks. -/
def dash_rule : String := String.mk (List.replicate 80 (Char.ofNat 0x2500))

/-- `LLMGenerator.format_context` (lines 35-72): number the blocks from 1,
join with newlines after the leading rule, and truncate at
`MAX_CONTEXT_LENGTH` characters, appending the marker, whenever the full
text is longer than the budget. -/
def format_context (subgraphs : List Subgraph) : String :=
  let blocks := (List.enumFrom 1 subgraphs).map (fun p => source_block p.1 p.2)
  let full := "\n" ++ dash_rule ++ String.intercalate "\n" blocks
  if MAX_CONTEXT_LENGTH < full.length then
    String.mk (full.data.take MAX_CONTEXT_LENGTH) ++ trunc_marker
  else full

/-- The attribution record for one subgraph (lines 168-176);
`sg.get('cross_encoder_score', 0.0)` is the `getD 0`. -/
def source_attr (sg : Subgraph) : SourceAttr :=
  { substance_name := sg.substance_name
    section_name := sg.section_name
    similarity_score := sg.similarity_score
    cross_encoder_score := sg.cross_encoder_score.getD 0 }

/-- `LLMGenerator.generate_answer` (lines 109-204) together with the number
of generation-service calls it performs. Empty candidates short-circuit to
the fixed no-information answer with zero calls; otherwise exactly one call
is made and its outcome `svc` is folded into a result — timeouts, other
request exceptions, and non-200 statuses each produce a fixed user-facing
answer plus a diagnostic `error`, and a 200 status returns the stripped
`response` field with the mechanically derived sources. -/
def generate_answer (svc : SvcOutcome) (query : String)
    (subgraphs : List Subgraph) : GenResult × Nat :=
  if subgraphs.isEmpty then
    ({ answer := no_info_answer, sources := [], error := none }, 0)
  else
    match svc with
    | .timeout =>
      ({ answer := timeout_fallback_answer, sources := [],
         error := some "Ollama request timed out" }, 1)
    | .exc m =>
      ({ answer := generation_error_answer, sources := [],
         error := some ("Error calling Ollama: " ++ m) }, 1)
    | .resp st body =>
      if st == 200 then
        ({ answer := py_strip body, sources := subgraphs.map source_attr,
           error := none, model := some OLLAMA_MODEL,
           temperature := some OLLAMA_TEMPERATURE }, 1)
      else
        ({ answer := generation_error_answer, sources := [],
           error := some ("Ollama API error: " ++ toString st) }, 1)

/-! ## Query pipeline orchestrator (src/core/query_pipeline.py) -/

/-- `QueryPipeline.process_query` (lines 39-140). The three stages are
behaviour parameters (`Except` models a stage call that may raise); the
`try/except Exception` of lines 66-127 is the `.error` handling, which
records the exception text and the generic fallback answer. `clock n` is
the value of the n-th `time.time()` call on the path actually taken:
line 50 is call 0, line 71 call 1, line 76 call 2, line 92 call 3,
line 98 call 4, line 109 call 5, line 111 call 6, line 130 call 7; a stage
that raises skips the post-stage calls and falls through to line 130. -/
def process_query (clock : ℕ → ℚ) (query : String)
    (searchB : Except String (List Subgraph))
    (rerankB : List Subgraph → Except String (List Subgraph))
    (genB : List Subgraph → Except String GenResult) : PipelineResult :=
  let t0 := clock 0
  match searchB with
  | .error e =>
    { query := query, answer := some pipeline_error_answer, sources := [],
      error := some e, timing := { total := clock 2 - t0 } }
  | .ok subgraphs =>
    let vs := clock 2 - clock 1
    if subgraphs.isEmpty then
      { query := query, answer := some no_results_answer, sources := [],
        error := none,
        timing := { vector_search := some vs, total := clock 3 - t0 } }
    else
      match rerankB subgraphs with
      | .error e =>
        { query := query, answer := some pipeline_error_answer, sources := [],
          error := some e,
          timing := { vector_search := some vs, total := clock 4 - t0 } }
      | .ok reranked =>
        let rr := clock 4 - clock 3
        match genB reranked with
        | .error e =>
          { query := query, answer := some pipeline_error_answer, sources := [],
            error := some e,
            timing := { vector_search := some vs, reranking := some rr,
                        total := clock 6 - t0 } }
        | .ok llm =>
          { query := query, answer := some llm.answer, sources := llm.sources,
            error := llm.error,
            timing := { vector_search := some vs, reranking := some rr,
                        llm_generation := some (clock 6 - clock 5),
                        total := clock 7 - t0 } }

/-- The generation stage as the pipeline sees it: either the call raises
(`genExc`), or it returns what `generate_answer` produces for the service
outcome `svc` — `generate_answer` itself never raises. -/
def gen_behavior (query : String) (svc : SvcOutcome) (genExc : Option String) :
    List Subgraph → Except String GenResult :=
  fun reranked =>
    match genExc with
    | some m => .error m
    | none => .ok (generate_answer svc query reranked).1

/-! ## Concrete inputs used by witnesses and counterexamples -/

def sg0 : Subgraph :=
  { substance_name := "Asparagus", section_name := "Safety",
    section_text := "Likely safe in food amounts.", word_count := 5,
    entity_count := 1, entities := ["Pregnancy"], similarity_score := 17/20,
    node_id := "n0" }

def ce0 : String → String → ℚ := fun _ _ => 0

def s1 : Passage :=
  { node_id := "p1", substance_name := "Asparagus", section_name := "Safety",
    section_text := "t1", word_count := 2, entity_count := 1,
    similarity_score := 17/20 }

def s2 : Passage :=
  { node_id := "p2", substance_name := "Asparagus",
    section_name := "AdverseEffects", section_text := "t2", word_count := 2,
    entity_count := 1, similarity_score := 18/25 }

def s3 : Passage :=
  { node_id := "p3", substance_name := "Asparagus",
    section_name := "Effectiveness", section_text := "t3", word_count := 2,
    entity_count := 1, similarity_score := 2/5 }

def ent0 : String → String → Except String (List String) :=
  fun _ _ => .ok ["Pregnancy"]

def ent_fail : String → String → Except String (List String) :=
  fun _ _ => .error "Neo4j connection failure"

def b1 : Subgraph :=
  { substance_name := "Asparagus", section_name := "Safety",
    section_text := "t1", word_count := 2, entity_count := 1,
    entities := ["Pregnancy"], similarity_score := 17/20, node_id := "p1" }

def b2 : Subgraph :=
  { substance_name := "Asparagus", section_name := "AdverseEffects",
    section_text := "t2", word_count := 2, entity_count := 1,
    entities := ["Pregnancy"], similarity_score := 18/25, node_id := "p2" }

def b3 : Subgraph :=
  { substance_name := "Asparagus", section_name := "Effectiveness",
    section_text := "t3", word_count := 2, entity_count := 1,
    entities := ["Pregnancy"], similarity_score := 2/5, node_id := "p3" }

def store0 : Nat → Subgraph := fun _ => sg0

/-! # Theorems -/

/-! ## Generic lemmas about the Python slice and the stable descending sort -/

theorem length_insortDesc (key : α → ℚ) (x : α) (l : List α) :
    (insortDesc key x l).length = l.length + 1 := by
  induction l with
  | nil => rfl
  | cons y ys ih =>
    simp only [insortDesc]
    split
    · simp
    · simp [ih]

theorem mem_insortDesc {key : α → ℚ} {x a : α} {l : List α} :
    a ∈ insortDesc key x l ↔ a = x ∨ a ∈ l := by
  induction l with
  | nil => simp [insortDesc]
  | cons y ys ih =>
    simp only [insortDesc]
    split
    · simp [List.mem_cons]
    · simp only [List.mem_cons, ih]
      tauto

theorem length_sortDesc (key : α → ℚ) (l : List α) :
    (sortDesc key l).length = l.length := by
  induction l with
  | nil => rfl
  | cons x xs ih => simp [sortDesc, length_insortDesc, ih]

theorem mem_sortDesc {key : α → ℚ} {a : α} {l : List α} :
    a ∈ sortDesc key l ↔ a ∈ l := by
  induction l with
  | nil => simp [sortDesc]
  | cons x xs ih => simp [sortDesc, mem_insortDesc, ih]

theorem pairwise_insortDesc (key : α → ℚ) (x : α) {l : List α}
    (h : l.Pairwise (fun a b => key b ≤ key a)) :
    (insortDesc key x l).Pairwise (fun a b => key b ≤ key a) := by
  induction l with
  | nil => simp [insortDesc]
  | cons y ys ih =>
    rcases List.pairwise_cons.1 h with ⟨hy, hys⟩
    simp only [insortDesc]
    split
    · rename_i hle
      refine List.pairwise_cons.2 ⟨?_, h⟩
      intro z hz
      rcases List.mem_cons.1 hz with rfl | hz
      · exact hle
      · exact le_trans (hy z hz) hle
    · rename_i hlt
      push_neg at hlt
      refine List.pairwise_cons.2 ⟨?_, ih hys⟩
      intro z hz
      rcases mem_insortDesc.1 hz with rfl | hz
      · exact le_of_lt hlt
      · exact hy z hz

theorem pairwise_sortDesc (key : α → ℚ) (l : List α) :
    (sortDesc key l).Pairwise (fun a b => key b ≤ key a) := by
  induction l with
  | nil => simp [sortDesc]
  | cons x xs ih => exact pairwise_insortDesc key x ih

theorem filter_insortDesc (key : α → ℚ) (x : α) (q : ℚ) (l : List α) :
    (insortDesc key x l).filter (fun y => decide (key y = q)) =
      if key x = q then x :: l.filter (fun y => decide (key y = q))
      else l.filter (fun y => decide (key y = q)) := by
  induction l with
  | nil =>
    by_cases hx : key x = q <;> simp [insortDesc, List.filter, hx]
  | cons y ys ih =>
    simp only [insortDesc]
    split
    · rename_i hle
      by_cases hx : key x = q <;> simp [List.filter_cons, hx]
    · rename_i hgt
      push_neg at hgt
      by_cases hy : key y = q
      · have hx : ¬ key x = q := by
          intro hh
          rw [hh, ← hy] at hgt
          exact lt_irrefl _ hgt
        simp [List.filter_cons, hy, ih, hx]
      · simp [List.filter_cons, hy, ih]

theorem filter_sortDesc (key : α → ℚ) (q : ℚ) (l : List α) :
    (sortDesc key l).filter (fun y => decide (key y = q)) =
      l.filter (fun y => decide (key y = q)) := by
  induction l with
  | nil => rfl
  | cons x xs ih =>
    simp only [sortDesc, filter_insortDesc, ih]
    by_cases hx : key x = q <;> simp [List.filter_cons, hx]

theorem length_pyTake_nonneg {n : Int} (h : 0 ≤ n) (l : List α) :
    (pyTake n l).length = min n.toNat l.length := by
  simp [pyTake, sliceCount, h, List.length_take]

/-! ## C2: output length of rerank -/

/-- C2 counterexample: the claim "for every candidate list and every top_n,
rerank returns a sequence of length exactly min(top_n, len(candidates))"
fails at `top_n = -1` with one candidate: Python's slice `[:‑1]` drops the
last element, so `rerank` returns the empty list (length 0), while
`min(-1, 1) = -1` — no sequence has length `-1`, so the claimed equality is
false at this input. -/
theorem rerank_negative_topn_cex :
    (rerank ce0 "q" [sg0] (some (-1))).length = 0 ∧
    min (-1 : Int) (([sg0] : List Subgraph).length : Int) = -1 ∧
    ¬ ((0 : Int) = -1) := by
  refine ⟨rfl, by decide, by decide⟩

/-- C2 (amended): for every candidate list and every top_n whose effective
value (the given value, or the configured default 3 when top_n is None) is
nonnegative, rerank returns a sequence of length exactly
min(top_n, len(candidates)); in particular, for an empty candidate list it
returns the empty sequence without error. -/
theorem rerank_length (ce : String → String → ℚ) (query : String)
    (sgs : List Subgraph) (top_n : Option Int)
    (h : 0 ≤ top_n.getD TOP_N_RERANKED) :
    (rerank ce query sgs top_n).length
      = min (top_n.getD TOP_N_RERANKED).toNat sgs.length ∧
    rerank ce query [] top_n = [] := by
  refine ⟨?_, rfl⟩
  cases sgs with
  | nil => simp [rerank]
  | cons a l =>
    show (pyTake (top_n.getD TOP_N_RERANKED)
      (sortDesc ce_key (assign_scores ce query (a :: l)))).length = _
    rw [length_pyTake_nonneg h, length_sortDesc]
    simp [assign_scores]

/-- C2 witness: at the spec's own example shape (3 candidates, top_n = 2)
the amended claim gives output length 2 = min 2 3. -/
theorem rerank_length_witness :
    (rerank ce0 "q" [sg0, sg0, sg0] (some 2)).length = min 2 3 := by
  exact (rerank_length ce0 "q" [sg0, sg0, sg0] (some 2) (by decide)).1

/-! ## C3: rerank ordering and stability -/

/-- C3: the sequence returned by rerank is sorted by cross-encoder score
descending, and the underlying sort is stable: restricted to any one score
value q, the output is a prefix of the scored input in input order (the
input order of `rerank` is the vector-similarity order its caller provides),
so any two equal-score candidates retain their relative input order. -/
theorem rerank_sorted_stable (ce : String → String → ℚ) (query : String)
    (sgs : List Subgraph) (top_n : Option Int) :
    (rerank ce query sgs top_n).Pairwise (fun a b => ce_key b ≤ ce_key a) ∧
    ∀ q : ℚ, ∃ t,
      (assign_scores ce query sgs).filter (fun x => decide (ce_key x = q)) =
        (rerank ce query sgs top_n).filter (fun x => decide (ce_key x = q)) ++ t := by
  cases sgs with
  | nil =>
    refine ⟨by simp [rerank], fun q => ⟨[], by simp [rerank, assign_scores]⟩⟩
  | cons a l =>
    have hdef : rerank ce query (a :: l) top_n =
        (sortDesc ce_key (assign_scores ce query (a :: l))).take
          (sliceCount (top_n.getD TOP_N_RERANKED)
            (sortDesc ce_key (assign_scores ce query (a :: l))).length) := rfl
    constructor
    · rw [hdef]
      exact (pairwise_sortDesc ce_key _).sublist (List.take_sublist _ _)
    · intro q
      refine ⟨((sortDesc ce_key (assign_scores ce query (a :: l))).drop
        (sliceCount (top_n.getD TOP_N_RERANKED)
          (sortDesc ce_key (assign_scores ce query (a :: l))).length)).filter
            (fun x => decide (ce_key x = q)), ?_⟩
      rw [hdef, ← List.filter_append, List.take_append_drop,
        filter_sortDesc]

/-! ## C4 and C7: search_with_subgraphs -/

theorem similarity_build_subgraph_context
    {ent : String → String → Except String (List String)} {s : Passage}
    {sg : Subgraph} (h : build_subgraph_context ent s = .ok sg) :
    sg.similarity_score = s.similarity_score := by
  unfold build_subgraph_context at h
  cases hE : ent s.substance_name s.section_name with
  | error e => rw [hE] at h; cases h
  | ok es => rw [hE] at h; cases h; rfl

theorem mem_build_subgraphs
    {ent : String → String → Except String (List String)} {l : List Passage}
    {out : List Subgraph} (h : build_subgraphs ent l = .ok out) :
    ∀ sg ∈ out, ∃ s ∈ l, build_subgraph_context ent s = .ok sg := by
  induction l generalizing out with
  | nil =>
    cases h
    simp
  | cons s rest ih =>
    simp only [build_subgraphs] at h
    cases hB : build_subgraph_context ent s with
    | error e => rw [hB] at h; cases h
    | ok sg1 =>
      rw [hB] at h
      cases hR : build_subgraphs ent rest with
      | error e => rw [hR] at h; cases h
      | ok sgs =>
        rw [hR] at h
        cases h
        intro sg hsg
        rcases List.mem_cons.1 hsg with rfl | hmem
        · exact ⟨s, List.mem_cons_self _ _, hB⟩
        · rcases ih hR sg hmem with ⟨s2, hs2, hb2⟩
          exact ⟨s2, List.mem_cons_of_mem _ hs2, hb2⟩

/-- C4: whenever search_with_subgraphs returns normally, every passage in
its output has vector similarity at least the configured threshold θ, and
no raw search result strictly below θ can appear in the output (its built
subgraph is absent). -/
theorem search_with_subgraphs_floor
    (ent : String → String → Except String (List String)) (θ : ℚ)
    (sections : List Passage) (out : List Subgraph)
    (h : search_with_subgraphs ent θ sections = .ok out) :
    (∀ sg ∈ out, θ ≤ sg.similarity_score) ∧
    (∀ s ∈ sections, s.similarity_score < θ →
      ∀ sg, build_subgraph_context ent s = .ok sg → sg ∉ out) := by
  have h1 : ∀ sg ∈ out, θ ≤ sg.similarity_score := by
    intro sg hsg
    simp only [search_with_subgraphs] at h
    by_cases hk :
        (sections.filter (fun s => decide (θ ≤ s.similarity_score))).isEmpty
    · rw [if_pos hk] at h
      cases h
      cases hsg
    · rw [if_neg hk] at h
      rcases mem_build_subgraphs h sg hsg with ⟨s, hsmem, hb⟩
      have hdec := (List.mem_filter.1 hsmem).2
      rw [similarity_build_subgraph_context hb]
      exact of_decide_eq_true hdec
  refine ⟨h1, ?_⟩
  intro s _ hlt sg hb hmem
  have hge := h1 sg hmem
  rw [similarity_build_subgraph_context hb] at hge
  exact absurd hge (not_le.2 hlt)

/-- C4 witness, using the spec's own example: raw similarities
[0.85, 0.72, 0.40] all pass a 0.3 floor (3 results), only two pass a 0.5
floor, and the floor bound follows from the theorem at the first output. -/
theorem search_with_subgraphs_floor_witness :
    search_with_subgraphs ent0 (3/10) [s1, s2, s3] = .ok [b1, b2, b3] ∧
    search_with_subgraphs ent0 (1/2) [s1, s2, s3] = .ok [b1, b2] ∧
    (3/10 : ℚ) ≤ b1.similarity_score := by
  have h3 : search_with_subgraphs ent0 (3/10) [s1, s2, s3] = .ok [b1, b2, b3] := by
    norm_num [search_with_subgraphs, build_subgraphs, build_subgraph_context,
      ent0, s1, s2, s3, b1, b2, b3, List.filter]
  have h5 : search_with_subgraphs ent0 (1/2) [s1, s2, s3] = .ok [b1, b2] := by
    norm_num [search_with_subgraphs, build_subgraphs, build_subgraph_context,
      ent0, s1, s2, s3, b1, b2, List.filter]
  refine ⟨h3, h5, ?_⟩
  exact (search_with_subgraphs_floor ent0 (3/10) [s1, s2, s3] [b1, b2, b3]
    h3).1 b1 (by simp)

/-- C7 evaluation: with one retained passage (similarity 0.85 ≥ threshold
0.3) whose related-terms lookup raises, `search_with_subgraphs` does not
degrade to an empty term list — it propagates the exception and returns no
primary results at all, because `build_subgraph_context` wraps
`get_section_entities` in no try/except (src/core/vector_search.py lines
147-180, 205-215). -/
theorem search_with_subgraphs_aborts_on_entity_failure :
    search_with_subgraphs ent_fail MIN_SIMILARITY_THRESHOLD [s1] =
      .error "Neo4j connection failure" := by
  norm_num [search_with_subgraphs, build_subgraphs, build_subgraph_context,
    ent_fail, s1, MIN_SIMILARITY_THRESHOLD, List.filter]

/-! ## C5 and C6: generate_answer -/

/-- C5: for every query and every behaviour of the generation service,
generate_answer on an empty ranked-candidate sequence returns the fixed
no-relevant-information answer, an empty sources list and no error, and
performs zero calls to the generation service. -/
theorem generate_answer_empty (svc : SvcOutcome) (query : String) :
    generate_answer svc query [] =
      ({ answer := no_info_answer, sources := [], error := none }, 0) := rfl

/-- C6: for every query and non-empty candidate sequence, a failing
generation service (timeout, request exception, or non-200 status) makes
generate_answer return — it is a total function, so nothing escapes its
boundary — a populated error field and a fixed user-facing answer: the
timeout-fallback string on timeout, and the generic generation-error string
otherwise, with the matching diagnostic in each case. -/
theorem generate_answer_failure (svc : SvcOutcome) (query : String)
    (sgs : List Subgraph) (hne : sgs ≠ []) (hfail : svc.isSuccess = false) :
    (generate_answer svc query sgs).1.error.isSome = true ∧
    (svc = .timeout →
      (generate_answer svc query sgs).1.answer = timeout_fallback_answer ∧
      (generate_answer svc query sgs).1.error = some "Ollama request timed out") ∧
    (∀ m, svc = .exc m →
      (generate_answer svc query sgs).1.answer = generation_error_answer ∧
      (generate_answer svc query sgs).1.error =
        some ("Error calling Ollama: " ++ m)) ∧
    (∀ st body, svc = .resp st body →
      (generate_answer svc query sgs).1.answer = generation_error_answer ∧
      (generate_answer svc query sgs).1.error =
        some ("Ollama API error: " ++ toString st)) := by
  have hE : sgs.isEmpty = false := by
    cases sgs with
    | nil => exact absurd rfl hne
    | cons a l => rfl
  cases svc with
  | timeout => simp [generate_answer, hE]
  | exc m => simp [generate_answer, hE]
  | resp st body =>
    have hst : (st == 200) = false := by
      simpa [SvcOutcome.isSuccess] using hfail
    simp [generate_answer, hE, hst]

/-- C6 witness: a concrete timeout with one candidate. -/
theorem generate_answer_failure_witness :
    (generate_answer .timeout "q" [sg0]).1.error.isSome = true ∧
    (generate_answer .timeout "q" [sg0]).1.answer = timeout_fallback_answer := by
  have h := generate_answer_failure .timeout "q" [sg0] (by simp) rfl
  exact ⟨h.1, (h.2.1 rfl).1⟩

/-! ## C8: context length budget -/

theorem str_length_append (a b : String) :
    (a ++ b).length = a.length + b.length := by
  cases a with
  | mk d =>
    cases b with
    | mk e =>
      show (String.mk (d ++ e)).length = _
      simp [String.length]

theorem str_mk_take_length (l : List Char) (n : Nat) :
    (String.mk (l.take n)).length ≤ n := by
  simp [String.length, List.length_take]

/-- C8: for every ordered candidate sequence, the assembled context string
produced by format_context is at most MAX_CONTEXT_LENGTH characters plus
the fixed length of the truncation marker. -/
theorem format_context_length (subgraphs : List Subgraph) :
    (format_context subgraphs).length ≤
      MAX_CONTEXT_LENGTH + trunc_marker.length := by
  simp only [format_context]
  split
  · rw [str_length_append]
    exact Nat.add_le_add_right (str_mk_take_length _ _) _
  · rename_i hshort
    push_neg at hshort
    omega

/-! ## C9: timing invariant of process_query -/

/-- C9: for every completed process_query call, under a monotonically
nondecreasing clock, the recorded total wall-clock time is at least the sum
of the recorded vector-search, rerank and generation stage times (a stage
that was never reached contributes 0). -/
theorem process_query_timing (clock : ℕ → ℚ)
    (hmono : ∀ a b : ℕ, a ≤ b → clock a ≤ clock b) (query : String)
    (searchB : Except String (List Subgraph))
    (rerankB : List Subgraph → Except String (List Subgraph))
    (genB : List Subgraph → Except String GenResult) :
    (process_query clock query searchB rerankB genB).timing.vector_search.getD 0 +
    (process_query clock query searchB rerankB genB).timing.reranking.getD 0 +
    (process_query clock query searchB rerankB genB).timing.llm_generation.getD 0 ≤
    (process_query clock query searchB rerankB genB).timing.total := by
  have h01 := hmono 0 1 (by norm_num)
  have h12 := hmono 1 2 (by norm_num)
  have h23 := hmono 2 3 (by norm_num)
  have h34 := hmono 3 4 (by norm_num)
  have h45 := hmono 4 5 (by norm_num)
  have h56 := hmono 5 6 (by norm_num)
  have h67 := hmono 6 7 (by norm_num)
  cases searchB with
  | error e =>
    simp only [process_query, Timing.vector_search, Timing.reranking,
      Timing.llm_generation, Timing.total, Option.getD_none]
    linarith
  | ok sgs =>
    cases sgs with
    | nil =>
      simp only [process_query, List.isEmpty_nil, if_true, Timing.vector_search,
        Timing.reranking, Timing.llm_generation, Timing.total,
        Option.getD_none, Option.getD_some]
      linarith
    | cons a l =>
      cases hR : rerankB (a :: l) with
      | error e =>
        simp only [process_query, List.isEmpty_cons, Bool.false_eq_true,
          if_false, hR, Timing.vector_search, Timing.reranking,
          Timing.llm_generation, Timing.total, Option.getD_none,
          Option.getD_some]
        linarith
      | ok rr =>
        cases hG : genB rr with
        | error e =>
          simp only [process_query, List.isEmpty_cons, Bool.false_eq_true,
            if_false, hR, hG, Timing.vector_search, Timing.reranking,
            Timing.llm_generation, Timing.total, Option.getD_none,
            Option.getD_some]
          linarith
        | ok llm =>
          simp only [process_query, List.isEmpty_cons, Bool.false_eq_true,
            if_false, hR, hG, Timing.vector_search, Timing.reranking,
            Timing.llm_generation, Timing.total, Option.getD_none,
            Option.getD_some]
          linarith

/-- C9 witness: the identity clock on a pipeline run whose search raises. -/
theorem process_query_timing_witness :
    (process_query (fun n => (n : ℚ)) "q" (.error "index down")
        (fun l => .ok l) (gen_behavior "q" .timeout none)).timing.vector_search.getD 0 +
    (process_query (fun n => (n : ℚ)) "q" (.error "index down")
        (fun l => .ok l) (gen_behavior "q" .timeout none)).timing.reranking.getD 0 +
    (process_query (fun n => (n : ℚ)) "q" (.error "index down")
        (fun l => .ok l) (gen_behavior "q" .timeout none)).timing.llm_generation.getD 0 ≤
    (process_query (fun n => (n : ℚ)) "q" (.error "index down")
        (fun l => .ok l) (gen_behavior "q" .timeout none)).timing.total :=
  process_query_timing (fun n => (n : ℚ))
    (fun a b h => by simpa using (Nat.cast_le (α := ℚ)).2 h) "q" (.error "index down")
    (fun l => .ok l) (gen_behavior "q" .timeout none)

/-! ## C1: the orchestrator boundary -/

/-- C1 counterexample: the claim that the `answer` field is never null/empty
fails when the generation service returns a 200 status whose `response`
field strips to the empty string — then `process_query` returns
`answer = ""` with `error = None`, for any clock and any query. The model
(`requests.post` succeeding, `result.get('response','').strip()` empty,
src/core/llm_generator.py lines 164-165 and query_pipeline.py line 114) is
instantiated at a concrete input. -/
theorem process_query_empty_answer_cex :
    (process_query (fun _ => 0) "q" (.ok [sg0]) (fun l => .ok l)
      (gen_behavior "q" (.resp 200 "") none)).answer = some "" ∧
    (process_query (fun _ => 0) "q" (.ok [sg0]) (fun l => .ok l)
      (gen_behavior "q" (.resp 200 "") none)).error = none := by
  constructor <;> rfl

/-- C1 (amended): for every query string and every behaviour of the
downstream stages (including any exception raised by vector search,
reranking, or generation), process_query never propagates an exception (it
is total here, mirroring the catch-all of lines 124-127); it always returns
a result whose answer field is non-null — the answer can be the empty
string only when the generation service succeeds with a completion that
strips to empty, and whenever error is populated the answer is a non-empty
fallback — and the error field is populated only on failure: if every stage
returns normally and the service reports success, error is None. -/
theorem process_query_boundary (clock : ℕ → ℚ) (query : String)
    (searchB : Except String (List Subgraph))
    (rerankB : List Subgraph → Except String (List Subgraph))
    (svc : SvcOutcome) (genExc : Option String) :
    (process_query clock query searchB rerankB
        (gen_behavior query svc genExc)).answer.isSome = true ∧
    (∀ e, (process_query clock query searchB rerankB
          (gen_behavior query svc genExc)).error = some e →
      ∃ a, (process_query clock query searchB rerankB
          (gen_behavior query svc genExc)).answer = some a ∧ a ≠ "") ∧
    (∀ sgs, searchB = .ok sgs → ∀ rr, rerankB sgs = .ok rr →
      genExc = none → svc.isSuccess = true →
      (process_query clock query searchB rerankB
          (gen_behavior query svc genExc)).error = none) := by
  cases searchB with
  | error e =>
    refine ⟨by simp [process_query], ?_, ?_⟩
    · intro e2 _
      exact ⟨pipeline_error_answer, by simp [process_query], by decide⟩
    · intro sgs hs
      simp at hs
  | ok sgs =>
    cases sgs with
    | nil =>
      refine ⟨by simp [process_query], ?_, ?_⟩
      · intro e2 he2
        simp [process_query] at he2
      · intro sgs2 hs rr hrr hg hsv
        simp [process_query]
    | cons a l =>
      cases hR : rerankB (a :: l) with
      | error e =>
        refine ⟨by simp [process_query, hR], ?_, ?_⟩
        · intro e2 _
          exact ⟨pipeline_error_answer, by simp [process_query, hR], by decide⟩
        · intro sgs2 hs rr hrr hg hsv
          injection hs with h
          subst h
          simp [hR] at hrr
      | ok rr =>
        cases genExc with
        | some m =>
          refine ⟨by simp [process_query, hR, gen_behavior], ?_, ?_⟩
          · intro e2 _
            exact ⟨pipeline_error_answer,
              by simp [process_query, hR, gen_behavior], by decide⟩
          · intro sgs2 hs rr2 hrr2 hg hsv
            simp at hg
        | none =>
          cases rr with
          | nil =>
            refine ⟨?_, ?_, ?_⟩
            · simp [process_query, hR, gen_behavior, generate_answer]
            · intro e2 he2
              simp [process_query, hR, gen_behavior, generate_answer] at he2
            · intro sgs2 hs rr2 hrr2 hg hsv
              simp [process_query, hR, gen_behavior, generate_answer]
          | cons b bs =>
            cases svc with
            | timeout =>
              refine ⟨by simp [process_query, hR, gen_behavior,
                generate_answer], ?_, ?_⟩
              · intro e2 _
                exact ⟨timeout_fallback_answer,
                  by simp [process_query, hR, gen_behavior, generate_answer],
                  by decide⟩
              · intro sgs2 hs rr2 hrr2 hg hsv
                simp [SvcOutcome.isSuccess] at hsv
            | exc m =>
              refine ⟨by simp [process_query, hR, gen_behavior,
                generate_answer], ?_, ?_⟩
              · intro e2 _
                exact ⟨generation_error_answer,
                  by simp [process_query, hR, gen_behavior, generate_answer],
                  by decide⟩
              · intro sgs2 hs rr2 hrr2 hg hsv
                simp [SvcOutcome.isSuccess] at hsv
            | resp st body =>
              by_cases hst : st == 200
              · refine ⟨?_, ?_, ?_⟩
                · simp [process_query, hR, gen_behavior, generate_answer, hst]
                · intro e2 he2
                  simp [process_query, hR, gen_behavior, generate_answer,
                    hst] at he2
                · intro sgs2 hs rr2 hrr2 hg hsv
                  simp [process_query, hR, gen_behavior, generate_answer, hst]
              · refine ⟨by simp [process_query, hR, gen_behavior,
                  generate_answer, hst], ?_, ?_⟩
                · intro e2 _
                  exact ⟨generation_error_answer,
                    by simp [process_query, hR, gen_behavior, generate_answer,
                      hst], by decide⟩
                · intro sgs2 hs rr2 hrr2 hg hsv
                  simp [SvcOutcome.isSuccess, hst] at hsv

/-- C1 witness: a fully successful concrete run has `error = None`. -/
theorem process_query_boundary_witness :
    (process_query (fun _ => 0) "q" (.ok [sg0]) (fun l => .ok l)
      (gen_behavior "q" (.resp 200 "Asparagus is likely safe.") none)).error =
        none := by
  exact (process_query_boundary (fun _ => 0) "q" (.ok [sg0]) (fun l => .ok l)
    (.resp 200 "Asparagus is likely safe.") none).2.2 [sg0] rfl [sg0] rfl rfl
    rfl

/-! ## C10: rerank mutates its input dicts in place -/

theorem assign_store_not_mem {store : Nat → Subgraph} {ps : List (Nat × ℚ)}
    {r : Nat} (h : r ∉ ps.map Prod.fst) :
    assign_store store ps r = store r := by
  induction ps generalizing store with
  | nil => rfl
  | cons p rest ih =>
    obtain ⟨a, sc⟩ := p
    simp only [List.map_cons, List.mem_cons, not_or] at h
    simp only [assign_store]
    rw [ih h.2]
    exact Function.update_noteq h.1 _ _

theorem assign_store_isSome {store : Nat → Subgraph} {ps : List (Nat × ℚ)}
    {r : Nat} (h : r ∈ ps.map Prod.fst) :
    (assign_store store ps r).cross_encoder_score.isSome = true := by
  induction ps generalizing store with
  | nil => cases h
  | cons p rest ih =>
    obtain ⟨a, sc⟩ := p
    by_cases hr : r ∈ rest.map Prod.fst
    · exact ih hr
    · have hra : r = a := by
        simp only [List.map_cons, List.mem_cons] at h
        tauto
      subst hra
      simp only [assign_store]
      rw [assign_store_not_mem hr, Function.update_same]
      rfl

theorem clear_ce_assign_store (store : Nat → Subgraph) (ps : List (Nat × ℚ))
    (r : Nat) :
    clear_ce (assign_store store ps r) = clear_ce (store r) := by
  induction ps generalizing store with
  | nil => rfl
  | cons p rest ih =>
    obtain ⟨a, sc⟩ := p
    simp only [assign_store]
    rw [ih]
    by_cases hra : r = a
    · subst hra
      rw [Function.update_same]
      rfl
    · rw [Function.update_noteq hra]

/-- C10: rerank mutates its input candidate dicts in place — every input
reference (including those truncated away from the returned top-N) ends up
with a `cross_encoder_score` key in the final store, the returned sequence
consists of references drawn from the input list (aliases, not copies), no
field other than `cross_encoder_score` of any stored dict changes, and
dicts not referenced by the input are untouched. -/
theorem rerank_heap_frame (ce : String → String → ℚ) (query : String)
    (store : Nat → Subgraph) (refs : List Nat) (top_n : Option Int) :
    (∀ r ∈ refs,
      ((rerank_heap ce query store refs top_n).1 r).cross_encoder_score.isSome
        = true) ∧
    (∀ r ∈ (rerank_heap ce query store refs top_n).2, r ∈ refs) ∧
    (∀ r : Nat,
      clear_ce ((rerank_heap ce query store refs top_n).1 r) =
        clear_ce (store r)) ∧
    (∀ r : Nat, r ∉ refs →
      (rerank_heap ce query store refs top_n).1 r = store r) := by
  cases refs with
  | nil =>
    exact ⟨by simp, by simp [rerank_heap], fun r => rfl, fun r _ => rfl⟩
  | cons a l =>
    have hmap : ((a :: l).zip
        ((a :: l).map (fun r => ce query (prepare_pair query (store r))))).map
          Prod.fst = a :: l :=
      List.map_fst_zip _ _ (by simp)
    refine ⟨?_, ?_, ?_, ?_⟩
    · intro r hr
      refine assign_store_isSome ?_
      rw [hmap]
      exact hr
    · intro r hr
      have h1 : r ∈ sortDesc
          (fun x => ce_key ((rerank_heap ce query store (a :: l) top_n).1 x))
          (a :: l) := (List.take_sublist _ _).subset hr
      exact mem_sortDesc.1 h1
    · intro r
      exact clear_ce_assign_store store _ r
    · intro r hr
      exact assign_store_not_mem (fun hc => hr (hmap ▸ hc))

/-- C10 witness: a concrete single-reference store — the referenced dict
gains the key and an unreferenced address is untouched. -/
theorem rerank_heap_frame_witness :
    ((rerank_heap ce0 "q" store0 [0] (some 3)).1 0).cross_encoder_score.isSome
      = true ∧
    (rerank_heap ce0 "q" store0 [0] (some 3)).1 5 = store0 5 := by
  have h := rerank_heap_frame ce0 "q" store0 [0] (some 3)
  exact ⟨h.1 0 (by simp), h.2.2.2 5 (by simp)⟩
